import Mathlib

/-!
Shallow embedding of the `stringent` crate (src/src/lib.rs): an adapter
library that converts process-execution outcomes into typed errors.

The Rust `ExitStatus` is modelled as a record of the three observations the
code makes of it (`success()`, `code()`, `signal()`); `io::Error` is
modelled by its message; `Result` is modelled by `Except`.  The
platform-conditional `signal_of` (`cfg(unix)` vs `cfg(not(unix))`) is
modelled by an explicit Boolean platform flag.
-/

namespace Stringent

/-- Model of `std::io::Error`: an opaque platform error, identified by its
rendered message. -/
structure IOError where
  msg : String
deriving DecidableEq, Repr

/-- Model of `std::process::ExitStatus` as the three observations the code
makes of it: `success()`, `code()`, and (on unix) `signal()`. -/
structure ExitStatus where
  success : Bool
  code : Option Int
  signal : Option Int
deriving DecidableEq, Repr

/-- Model of `std::process::Child`: an opaque process handle. -/
structure Child where
  id : Nat
deriving DecidableEq, Repr

/-- Model of `std::process::Output`: exit status plus captured bytes. -/
structure Output where
  status : ExitStatus
  stdout : List Nat
  stderr : List Nat
deriving DecidableEq, Repr

/-- `enum CommandStatusError` from src/src/lib.rs. -/
inductive CommandStatusError where
  | SpawnFailed (e : IOError)
  | ExitCode (code : Int)
  | Signal (signal : Option Int)
deriving DecidableEq, Repr

/-- `struct Std` from src/src/lib.rs: saved `stdout` and `stderr`. -/
structure Std where
  stdout : List Nat
  stderr : List Nat
deriving DecidableEq, Repr

/-- `struct CommandError` from src/src/lib.rs. -/
structure CommandError where
  err : CommandStatusError
  output : Option Std
deriving DecidableEq, Repr

/-- `fn signal_of(status: ExitStatus) -> Option<i32>`: on unix it returns
`status.signal()`; on non-unix platforms it returns `None`.  The `cfg`
split is modelled by the Boolean `unix` flag. -/
def signal_of (unix : Bool) (status : ExitStatus) : Option Int :=
  if unix then status.signal else none

/-- Core of `StringentResult::stringent_result`, parametrised by the value
`self` returned on success and the `Option<ExitStatus>` produced by
`option_status`.  Follows the `match` in src/src/lib.rs lines 282-289. -/
def stringentResultCore {α : Type} (unix : Bool) (self : α)
    (os : Option ExitStatus) : Except CommandStatusError α :=
  match os with
  | none => .ok self
  | some status =>
    if status.success then .ok self
    else
      match status.code with
      | some code => .error (.ExitCode code)
      | none => .error (.Signal (signal_of unix status))

/-- `impl StringentResult for ExitStatus`: `option_status` is `Some(self)`. -/
def ExitStatus.option_status (s : ExitStatus) : Option ExitStatus :=
  some s

/-- `stringent_result` for `ExitStatus`. -/
def ExitStatus.stringent_result (unix : Bool) (s : ExitStatus) :
    Except CommandStatusError ExitStatus :=
  stringentResultCore unix s s.option_status

/-- `impl StringentResult for Option<ExitStatus>`: `option_status` is the
value itself. -/
def optStatusOptionStatus (s : Option ExitStatus) : Option ExitStatus :=
  s

/-- `stringent_result` for `Option<ExitStatus>`. -/
def optStatusStringentResult (unix : Bool) (s : Option ExitStatus) :
    Except CommandStatusError (Option ExitStatus) :=
  stringentResultCore unix s (optStatusOptionStatus s)

/-- `impl Verify<ExitStatus, CommandStatusError> for Result<ExitStatus, io::Error>`. -/
def verifyStatus (unix : Bool) :
    Except IOError ExitStatus → Except CommandStatusError ExitStatus
  | .error ioErr => .error (.SpawnFailed ioErr)
  | .ok status => status.stringent_result unix

/-- `impl Verify<Option<ExitStatus>, CommandStatusError> for Result<Option<ExitStatus>, io::Error>`. -/
def verifyOptStatus (unix : Bool) :
    Except IOError (Option ExitStatus) →
      Except CommandStatusError (Option ExitStatus)
  | .error ioErr => .error (.SpawnFailed ioErr)
  | .ok status => optStatusStringentResult unix status

/-- `impl Verify<Child, CommandStatusError> for Result<Child, io::Error>`. -/
def verifyChild :
    Except IOError Child → Except CommandStatusError Child
  | .error ioErr => .error (.SpawnFailed ioErr)
  | .ok child => .ok child

/-- `impl Verify<Output, CommandError> for Result<Output, io::Error>`. -/
def verifyOutput (unix : Bool) :
    Except IOError Output → Except CommandError Output
  | .error ioErr => .error ⟨.SpawnFailed ioErr, none⟩
  | .ok output =>
    match output.status.stringent_result unix with
    | .error err => .error ⟨err, some ⟨output.stdout, output.stderr⟩⟩
    | .ok _ => .ok output

/-- `impl fmt::Display for CommandStatusError` (src/src/lib.rs lines
191-203), as the rendered message string. -/
def CommandStatusError.display : CommandStatusError → String
  | .SpawnFailed e => "Spawn failed: " ++ e.msg
  | .ExitCode code => "Exit code " ++ toString code
  | .Signal (some sig) => "Terminated by signal " ++ toString sig
  | .Signal none => "Terminated"

/-- `impl Error for CommandStatusError`: `source()` returns the wrapped
`io::Error` for `SpawnFailed` and `None` otherwise. -/
def CommandStatusError.source : CommandStatusError → Option IOError
  | .SpawnFailed ioErr => some ioErr
  | .ExitCode _ => none
  | .Signal _ => none

/-- `impl fmt::Display for CommandError`: delegates to the `err` field. -/
def CommandError.display (c : CommandError) : String :=
  c.err.display

/-- `impl Error for CommandError`: delegates to the `err` field. -/
def CommandError.source (c : CommandError) : Option IOError :=
  c.err.source

/-- `impl From<CommandStatusError> for CommandError` (src/src/lib.rs lines
353-360). -/
def commandErrorFrom (status_error : CommandStatusError) : CommandError :=
  { err := status_error, output := none }

/-! Helper lemmas shared by the claim theorems. -/

/-- Two strings with different first characters are different. -/
lemma string_ne_of_head {s t : String} (h : s.data.head? ≠ t.data.head?) :
    s ≠ t := by
  intro he
  exact h (by rw [he])

/-- A `SpawnFailed` message starts with the character S. -/
lemma display_head_spawnFailed (e : IOError) :
    (CommandStatusError.SpawnFailed e).display.data.head? = some 'S' := by
  show ("Spawn failed: " ++ e.msg).data.head? = some 'S'
  rw [String.data_append]
  rfl

/-- An `ExitCode` message starts with the character E. -/
lemma display_head_exitCode (c : Int) :
    (CommandStatusError.ExitCode c).display.data.head? = some 'E' := by
  show ("Exit code " ++ toString c).data.head? = some 'E'
  rw [String.data_append]
  rfl

/-- A `Signal` message starts with the character T. -/
lemma display_head_signal (sg : Option Int) :
    (CommandStatusError.Signal sg).display.data.head? = some 'T' := by
  cases sg with
  | none => rfl
  | some s =>
    show ("Terminated by signal " ++ toString s).data.head? = some 'T'
    rw [String.data_append]
    rfl

/-- A classification that is `ok` returned the input itself:
`stringent_result` only ever succeeds with `self`. -/
lemma stringent_result_isOk_eq (unix : Bool) (s : ExitStatus)
    (h : (s.stringent_result unix).isOk = true) :
    s.stringent_result unix = .ok s := by
  unfold ExitStatus.stringent_result stringentResultCore
    ExitStatus.option_status at h ⊢
  cases hs : s.success
  · cases hc : s.code
    · simp [hs, hc, Except.isOk, Except.toBool] at h
    · simp [hs, hc, Except.isOk, Except.toBool] at h
  · simp [hs]

/-! The claim theorems. -/

/-- Claim C1: for every exit status with success flag false carrying a numeric
exit code `c` (any signed integer, including negative), classification
(`stringent_result`, and hence `verify` on an Ok-wrapped status) yields the
error `ExitCode c` exactly — never `Signal` and never success. -/
theorem C1_exitCode_classification (unix : Bool) (s : ExitStatus) (c : Int)
    (hs : s.success = false) (hc : s.code = some c) :
    s.stringent_result unix = .error (.ExitCode c) ∧
    verifyStatus unix (.ok s) = .error (.ExitCode c) := by
  have h : s.stringent_result unix = .error (.ExitCode c) := by
    unfold ExitStatus.stringent_result stringentResultCore
      ExitStatus.option_status
    simp [hs, hc]
  exact ⟨h, h⟩

/-- Witness for C1: a status with success=false and code -3. -/
theorem C1_exitCode_classification_witness :
    ExitStatus.stringent_result true ⟨false, some (-3), none⟩ =
      .error (.ExitCode (-3)) ∧
    verifyStatus true (.ok ⟨false, some (-3), none⟩) =
      .error (.ExitCode (-3)) :=
  C1_exitCode_classification true ⟨false, some (-3), none⟩ (-3) rfl rfl

/-- Claim C2: for every exit status with success flag false and no numeric
code, classification yields `Signal (signal_of unix s)`: `Signal (some sig)`
when the platform is signal-capable and the status carries signal `sig`, and
`Signal none` on platforms without signal reporting. -/
theorem C2_signal_classification (unix : Bool) (s : ExitStatus)
    (hs : s.success = false) (hc : s.code = none) :
    s.stringent_result unix = .error (.Signal (signal_of unix s)) ∧
    (∀ sig : Int, unix = true → s.signal = some sig →
      s.stringent_result unix = .error (.Signal (some sig))) ∧
    (unix = false → s.stringent_result unix = .error (.Signal none)) := by
  have h : s.stringent_result unix = .error (.Signal (signal_of unix s)) := by
    unfold ExitStatus.stringent_result stringentResultCore
      ExitStatus.option_status
    simp [hs, hc]
  refine ⟨h, ?_, ?_⟩
  · intro sig hu hsig
    rw [h]
    simp [signal_of, hu, hsig]
  · intro hu
    rw [h]
    simp [signal_of, hu]

/-- Witness for C2: a status killed by signal 24 on a unix platform. -/
theorem C2_signal_classification_witness :
    ExitStatus.stringent_result true ⟨false, none, some 24⟩ =
      .error (.Signal (signal_of true ⟨false, none, some 24⟩)) ∧
    (∀ sig : Int, true = true → (some 24 : Option Int) = some sig →
      ExitStatus.stringent_result true ⟨false, none, some 24⟩ =
        .error (.Signal (some sig))) ∧
    (true = false → ExitStatus.stringent_result true ⟨false, none, some 24⟩ =
      .error (.Signal none)) :=
  C2_signal_classification true ⟨false, none, some 24⟩ rfl rfl

/-- Claim C3: every exit status whose success flag is true classifies as
success (the status is returned, no error), whatever the code and signal
fields contain. -/
theorem C3_success_classification (unix : Bool) (s : ExitStatus)
    (hs : s.success = true) :
    s.stringent_result unix = .ok s ∧
    verifyStatus unix (.ok s) = .ok s := by
  have h : s.stringent_result unix = .ok s := by
    unfold ExitStatus.stringent_result stringentResultCore
      ExitStatus.option_status
    simp [hs]
  exact ⟨h, h⟩

/-- Witness for C3: a successful status that still carries code and signal
fields. -/
theorem C3_success_classification_witness :
    ExitStatus.stringent_result false ⟨true, some 7, some 9⟩ =
      .ok ⟨true, some 7, some 9⟩ ∧
    verifyStatus false (.ok ⟨true, some 7, some 9⟩) =
      .ok ⟨true, some 7, some 9⟩ :=
  C3_success_classification false ⟨true, some 7, some 9⟩ rfl

/-- Claim C4: a raw spawn error produces `SpawnFailed` wrapping exactly that
I/O error in every input shape (exit status, optional exit status, child
handle, captured output), and the classifier is never invoked: the result is
exactly `SpawnFailed`, never `ExitCode` or `Signal` and never success. -/
theorem C4_spawn_error_all_shapes (unix : Bool) (e : IOError) :
    verifyStatus unix (.error e) = .error (.SpawnFailed e) ∧
    verifyOptStatus unix (.error e) = .error (.SpawnFailed e) ∧
    verifyChild (.error e) = .error (.SpawnFailed e) ∧
    verifyOutput unix (.error e) = .error ⟨.SpawnFailed e, none⟩ :=
  ⟨rfl, rfl, rfl, rfl⟩

/-- Claim C5: when a captured-output value classifies as a failure, `verify`
produces a `CommandError` whose output field is present and holds exactly the
raw captured bytes, verbatim (possibly empty lists, never `none`). -/
theorem C5_output_bytes_verbatim (unix : Bool) (o : Output)
    (err : CommandStatusError)
    (h : o.status.stringent_result unix = .error err) :
    verifyOutput unix (.ok o) = .error ⟨err, some ⟨o.stdout, o.stderr⟩⟩ := by
  simp only [verifyOutput, h]

/-- Witness for C5: a failing output with empty stdout and nonempty stderr;
the error carries `some` of exactly those bytes. -/
theorem C5_output_bytes_verbatim_witness :
    verifyOutput true (.ok ⟨⟨false, some 1, none⟩, [], [101, 33]⟩) =
      .error ⟨.ExitCode 1, some ⟨[], [101, 33]⟩⟩ :=
  C5_output_bytes_verbatim true ⟨⟨false, some 1, none⟩, [], [101, 33]⟩
    (.ExitCode 1) rfl

/-- Claim C6: `verify` is the identity on the success path: an Ok-wrapped
exit status whose classification succeeds, an Ok-wrapped captured output
whose status classifies as success, and an Ok-wrapped child handle are all
returned unchanged. -/
theorem C6_identity_on_success (unix : Bool) (s : ExitStatus) (o : Output)
    (child : Child)
    (hs : (s.stringent_result unix).isOk = true)
    (ho : (o.status.stringent_result unix).isOk = true) :
    verifyStatus unix (.ok s) = .ok s ∧
    verifyOutput unix (.ok o) = .ok o ∧
    verifyChild (.ok child) = .ok child := by
  refine ⟨stringent_result_isOk_eq unix s hs, ?_, rfl⟩
  simp only [verifyOutput, stringent_result_isOk_eq unix o.status ho]

/-- Witness for C6: a successful status, a successful captured output with
bytes, and a child handle all pass through unchanged. -/
theorem C6_identity_on_success_witness :
    verifyStatus true (.ok ⟨true, some 0, none⟩) = .ok ⟨true, some 0, none⟩ ∧
    verifyOutput true (.ok ⟨⟨true, some 0, none⟩, [104, 105], []⟩) =
      .ok ⟨⟨true, some 0, none⟩, [104, 105], []⟩ ∧
    verifyChild (.ok ⟨7⟩) = .ok ⟨7⟩ :=
  C6_identity_on_success true ⟨true, some 0, none⟩
    ⟨⟨true, some 0, none⟩, [104, 105], []⟩ ⟨7⟩ rfl rfl

/-- Claim C7: the sentinel wrapping is transparent: classifying `none`
(process still running) yields success carrying `none`, and classifying
`some X` yields exactly the result of classifying `X` with the Ok value
wrapped in `some` — the same success/failure judgment and the same error. -/
theorem C7_sentinel_transparent (unix : Bool) (X : ExitStatus) :
    optStatusStringentResult unix none = .ok none ∧
    verifyOptStatus unix (.ok none) = .ok none ∧
    optStatusStringentResult unix (some X) =
      (X.stringent_result unix).map some := by
  refine ⟨rfl, rfl, ?_⟩
  unfold optStatusStringentResult ExitStatus.stringent_result
    stringentResultCore ExitStatus.option_status optStatusOptionStatus
  cases hs : X.success
  · cases hc : X.code <;> simp [hs, hc, Except.map]
  · simp [hs, Except.map]

/-- Counterexample to C8 as stated: on a spawn error, the captured-output
`verify` produces a `CommandError` whose output field is `none` (absent),
not `some` of empty byte sequences. -/
theorem C8_counterexample :
    verifyOutput true (.error ⟨"boom"⟩) =
      .error ⟨.SpawnFailed ⟨"boom"⟩, none⟩ ∧
    (Except.error ⟨.SpawnFailed ⟨"boom"⟩, none⟩ : Except CommandError Output) ≠
      .error ⟨.SpawnFailed ⟨"boom"⟩, some ⟨[], []⟩⟩ :=
  ⟨rfl, by simp⟩

/-- Amended C8: when the captured-output raw shape is a spawn error, the
resulting error value's output field is absent (`none`) — no byte sequences,
empty or otherwise, are carried. -/
theorem C8_amended_spawn_error_output_absent (unix : Bool) (e : IOError) :
    verifyOutput unix (.error e) = .error ⟨.SpawnFailed e, none⟩ ∧
    (CommandError.mk (.SpawnFailed e) none).output = none :=
  ⟨rfl, rfl⟩

/-- Claim C9: each typed error renders a one-line message — naming the exit
code for `ExitCode`, naming the signal number for `Signal (some sig)`, and
the generic message for `Signal none` — the messages of the three kinds are
pairwise distinct, and `source` exposes the wrapped I/O error exactly when
the kind is `SpawnFailed`. -/
theorem C9_display_and_source :
    (∀ e : IOError,
      (CommandStatusError.SpawnFailed e).display = "Spawn failed: " ++ e.msg) ∧
    (∀ c : Int,
      (CommandStatusError.ExitCode c).display = "Exit code " ++ toString c) ∧
    (∀ sig : Int, (CommandStatusError.Signal (some sig)).display =
      "Terminated by signal " ++ toString sig) ∧
    (CommandStatusError.Signal none).display = "Terminated" ∧
    (∀ (e : IOError) (c : Int) (sg : Option Int),
      (CommandStatusError.SpawnFailed e).display ≠
        (CommandStatusError.ExitCode c).display ∧
      (CommandStatusError.ExitCode c).display ≠
        (CommandStatusError.Signal sg).display ∧
      (CommandStatusError.Signal sg).display ≠
        (CommandStatusError.SpawnFailed e).display) ∧
    (∀ (err : CommandStatusError) (e : IOError),
      err.source = some e ↔ err = .SpawnFailed e) := by
  refine ⟨fun _ => rfl, fun _ => rfl, fun _ => rfl, rfl, ?_, ?_⟩
  · intro e c sg
    refine ⟨string_ne_of_head ?_, string_ne_of_head ?_, string_ne_of_head ?_⟩
    · rw [display_head_spawnFailed, display_head_exitCode]
      decide
    · rw [display_head_exitCode, display_head_signal]
      decide
    · rw [display_head_signal, display_head_spawnFailed]
      decide
  · intro err e
    cases err <;> simp [CommandStatusError.source]

/-- Claim C10: converting a `CommandStatusError` into a `CommandError` via
the `From` conversion keeps the same status error in the `err` field and
always leaves the `output` field absent. -/
theorem C10_from_status_error (e : CommandStatusError) :
    commandErrorFrom e = ⟨e, none⟩ ∧
    (commandErrorFrom e).err = e ∧
    (commandErrorFrom e).output = none :=
  ⟨rfl, rfl, rfl⟩

end Stringent
